import Mathlib

set_option maxRecDepth 4000

/-!
Verification development for the ts-for-gir introspected type model and
conflict-resolution engine.  The `Conflicts` namespace is a shallow embedding
of `packages/lib/src/utils/conflicts.ts`; the `Resolver` and `Hooks`
namespaces model the type-reference resolver and the patch-hook pipeline.
The structural subtype checker `isSubtypeOf` (type-resolution.ts) is treated
as the module boundary it is in the source: the detector is parameterised
over it.
-/

namespace Conflicts

/-- The conflict classification kinds of `ConflictType` (gir.ts), as used by
`conflicts.ts`. -/
inductive ConflictType where
| FIELD_NAME_CONFLICT
| PROPERTY_NAME_CONFLICT
| PROPERTY_ACCESSOR_CONFLICT
| ACCESSOR_PROPERTY_CONFLICT
| FUNCTION_NAME_CONFLICT
| VFUNC_SIGNATURE_CONFLICT
deriving DecidableEq

/-- The type-expression grammar, restricted to the node kinds the conflict
detector and the patch hooks touch: `TypeIdentifier`, `ModuleTypeIdentifier`,
`ArrayType`, `GenericType`, `AnyType`, `NeverType` and `TypeConflict`. -/
inductive TypeExpr where
| ident : String → String → TypeExpr
| moduleIdent : String → String → String → TypeExpr
| array : TypeExpr → TypeExpr
| generic : String → TypeExpr → TypeExpr
| any : TypeExpr
| never : TypeExpr
| conflict : TypeExpr → ConflictType → TypeExpr
deriving DecidableEq

/-- Modelled from the spec: the `TypeConflict` constructor lives in gir.ts,
which is absent from the sources; the data-model invariant says a
`ConflictMarker` never wraps another `ConflictMarker`, so construction on an
already-marked type replaces the marker instead of nesting it. -/
def mkTypeConflict : TypeExpr → ConflictType → TypeExpr
| TypeExpr.conflict inner _, k => TypeExpr.conflict inner k
| t, k => TypeExpr.conflict t k

/-- The concrete prototype of a function-like member: `IntrospectedConstructor`,
`IntrospectedClassFunction`, `IntrospectedStaticClassFunction` or
`IntrospectedVirtualClassFunction`. -/
inductive FnKind where
| ctor
| method
| staticMethod
| virtualMethod
deriving DecidableEq

/-- `IntrospectedFunctionParameter`: name, type and the varargs flag. -/
structure Param where
  name : String
  type : TypeExpr
  isVarArgs : Bool
deriving DecidableEq

/-- A function-like member: name, prototype kind, parameters, output
parameters (absent on constructors), return type, the introspectable flag,
whether its owner is a class (used by `createNeverFunction`), and the
attached warning. -/
structure Fn where
  name : String
  kind : FnKind
  parameters : List Param
  output_parameters : List Param
  return_type : TypeExpr
  isIntrospectable : Bool
  ownerIsClass : Bool
  warning : Option String
deriving DecidableEq

/-- `IntrospectedField`: name and type. -/
structure FieldData where
  name : String
  type : TypeExpr
deriving DecidableEq

/-- `IntrospectedProperty`: name, type, and whether the owning declaration is
an `IntrospectedClass` (queried via `p.parent instanceof IntrospectedClass`). -/
structure PropData where
  name : String
  type : TypeExpr
  ownerIsClass : Bool
deriving DecidableEq

/-- Whether a `BaseClass` node is a class, an interface or a record. -/
inductive ClassKind where
| classKind
| interfaceKind
| recordKind
deriving DecidableEq

/-- A generic parameter entry added by `addGeneric`. -/
structure GenericEntry where
  constraint : TypeExpr
  deflt : TypeExpr
deriving DecidableEq

/-- The capability set of a resolved class/interface/record node that the
detector reads: name, namespace, kind, its `getType()` identifier, and its
constructors, members, props, fields and generics. -/
structure ClassData where
  name : String
  namespaceName : String
  kind : ClassKind
  type : TypeExpr
  ctors : List Fn
  members : List Fn
  props : List PropData
  fields : List FieldData
  generics : List GenericEntry
deriving DecidableEq

/-- An `IntrospectedBaseClass` together with its resolved ancestry: `parents`
lists every ancestor reachable through the superchain and the implemented
interfaces, in the order `someParent` / `findParentMap` visit them. -/
structure BaseClass extends ClassData where
  parents : List ClassData
deriving DecidableEq

/-- `base.someParent(pred)`: some resolved ancestor satisfies the predicate. -/
def BaseClass.someParent (c : BaseClass) (p : ClassData → Bool) : Bool :=
  c.parents.any p

/-- `base.findParentMap(f)`: the first `some` produced by `f` over the
resolved ancestors. -/
def BaseClass.findParentMap {α : Type} (c : BaseClass) (f : ClassData → Option α) : Option α :=
  c.parents.findSome? f

/-- The `isSubtypeOf` checker from type-resolution.ts, as the detector sees
it.  The namespace argument is fixed for a detector run and is curried away;
the remaining arguments are `childThis`, `parentThis`, the candidate subtype
and the candidate supertype. -/
abbrev SubtypeFn := TypeExpr → TypeExpr → TypeExpr → TypeExpr → Bool

/-- `GOBJECT_RESERVED_METHODS`: member names that always conflict on classes
rooted at GObject.Object. -/
def GOBJECT_RESERVED_METHODS : List String := ["connect", "connect_after", "emit"]

/-- JS truthiness test `p.name && p.name === other`. -/
def nameMatches (a b : String) : Bool := a != "" && a == b

/-- Whether the member is an `IntrospectedConstructor`. -/
def isCtor (f : Fn) : Bool :=
  match f.kind with
  | FnKind.ctor => true
  | _ => false

/-- `instanceof IntrospectedClassFunction`: every function-like member except
a constructor. -/
def instanceOfClassFunction (f : Fn) : Bool := !(isCtor f)

/-- `isConstructorConflict` (conflicts.ts): both members are constructors and
the child has more parameters, an incompatible return type, or an
incompatible parameter. -/
def isConstructorConflict (isSub : SubtypeFn) (childThis : TypeExpr) (child : Fn)
    (parentThis : TypeExpr) (parent : Fn) : Bool :=
  if isCtor child && isCtor parent then
    decide (child.parameters.length > parent.parameters.length)
    || !(isSub childThis parentThis child.return_type parent.return_type)
    || (List.zip child.parameters parent.parameters).any
        (fun pq => !(isSub childThis parentThis pq.1.type pq.2.type))
  else false

/-- `isMixedConstructorFunctionConflict`: exactly one side is a constructor. -/
def isMixedConstructorFunctionConflict (child parent : Fn) : Bool :=
  isCtor child != isCtor parent

/-- `hasDifferentPrototypes`: the two members are different concrete function
kinds (e.g. static vs instance). -/
def hasDifferentPrototypes (child parent : Fn) : Bool :=
  decide (child.kind ≠ parent.kind)

/-- `"output_parameters" in f`: constructors carry no output parameters. -/
def hasOutputParams (f : Fn) : Bool := !(isCtor f)

/-- `hasParameterOrReturnTypeConflicts` (conflicts.ts): the child has more
parameters than the parent, an incompatible return type, an incompatible
parameter, or (when both sides carry them) mismatched output parameters. -/
def hasParameterOrReturnTypeConflicts (isSub : SubtypeFn) (childThis : TypeExpr)
    (child : Fn) (parentThis : TypeExpr) (parent : Fn) : Bool :=
  decide (child.parameters.length > parent.parameters.length)
  || !(isSub childThis parentThis child.return_type parent.return_type)
  || (List.zip child.parameters parent.parameters).any
      (fun pq => !(isSub childThis parentThis pq.1.type pq.2.type))
  || (hasOutputParams child && hasOutputParams parent
      && (decide (child.output_parameters.length ≠ parent.output_parameters.length)
          || (List.zip child.output_parameters parent.output_parameters).any
              (fun pq => !(isSub childThis parentThis pq.1.type pq.2.type))))

/-- `isConflictingFunction` (conflicts.ts): non-introspectable members never
conflict; then constructor, mixed, prototype and signature rules in order. -/
def isConflictingFunction (isSub : SubtypeFn) (childThis : TypeExpr) (child : Fn)
    (parentThis : TypeExpr) (parent : Fn) : Bool :=
  if !(parent.isIntrospectable) || !(child.isIntrospectable) then false
  else if isConstructorConflict isSub childThis child parentThis parent then true
  else if isMixedConstructorFunctionConflict child parent then true
  else if hasDifferentPrototypes child parent then false
  else hasParameterOrReturnTypeConflicts isSub childThis child parentThis parent

/-- The first resolved ancestor (and its matching member) whose constructor or
member of the same name conflicts with the element; drives both the
`hasParentConflict` flag and the warning message in `checkFunctionConflicts`. -/
def findParentFnConflict (isSub : SubtypeFn) (base : BaseClass) (fe : Fn)
    (nextType : TypeExpr) : Option (ClassData × Fn) :=
  base.parents.findSome? (fun rp =>
    ((rp.ctors ++ rp.members).find?
        (fun p => nameMatches p.name fe.name
          && isConflictingFunction isSub nextType fe rp.type p)).map
      (fun p => (rp, p)))

/-- `checkFieldPropertyConflicts` (conflicts.ts): the name collides with a
prop or a field on the class itself or on any resolved ancestor. -/
def checkFieldPropertyConflicts (base : BaseClass) (name : String) : Bool :=
  (base.props.any (fun p => nameMatches p.name name)
    || base.fields.any (fun p => nameMatches p.name name))
  || base.parents.any (fun rp =>
      rp.props.any (fun p => nameMatches p.name name)
        || rp.fields.any (fun p => nameMatches p.name name))

/-- `checkGObjectConflicts` (conflicts.ts): the class is transitively rooted
at GObject.Object and the name is in the reserved set. -/
def checkGObjectConflicts (base : BaseClass) (name : String) : Bool :=
  base.parents.any (fun p => p.namespaceName == "GObject" && p.name == "Object")
  && GOBJECT_RESERVED_METHODS.contains name

/-- The `ConflictResult` record of `checkFunctionConflicts`. -/
structure ConflictResult where
  hasConflict : Bool
  shouldOmit : Bool
  message : Option String
deriving DecidableEq

/-- `checkFunctionConflicts` (conflicts.ts): explicit conflict ids force a
conflict; otherwise ancestor collisions and GObject reserved names set
`hasConflict`, and a field/property collision without a conflict of its own
sets `shouldOmit`. -/
def checkFunctionConflicts (isSub : SubtypeFn) (base : BaseClass) (fe : Fn)
    (conflict_ids : List String) (nextType : TypeExpr) : ConflictResult :=
  if conflict_ids.contains fe.name then
    { hasConflict := true, shouldOmit := false, message := none }
  else
    let pc := findParentFnConflict isSub base fe nextType
    let hasParentConflict := pc.isSome
    let message := pc.map (fun x =>
      "// Conflicted with " ++ x.1.namespaceName ++ "." ++ x.1.name ++ "." ++ x.2.name)
    let hasFieldConflicts := checkFieldPropertyConflicts base fe.name
    let hasGObjectConflicts := checkGObjectConflicts base fe.name
    let hasConflict := hasParentConflict || hasGObjectConflicts
    { hasConflict := hasConflict
      shouldOmit := hasFieldConflicts && !hasConflict
      message := message }

/-- The synthesized variadic `Never` parameter of `createNeverFunction`. -/
def neverParam : Param :=
  { name := "args", type := TypeExpr.array TypeExpr.never, isVarArgs := true }

/-- The prototype the synthesized never-overload gets: the original's, except
that a virtual function whose owner is not a class falls back to a plain
class function. -/
def neverFnKind (original : Fn) : FnKind :=
  match original.kind with
  | FnKind.ctor => FnKind.ctor
  | FnKind.staticMethod => FnKind.staticMethod
  | FnKind.virtualMethod =>
    if original.ownerIsClass then FnKind.virtualMethod else FnKind.method
  | FnKind.method => FnKind.method

/-- `createNeverFunction` (conflicts.ts): same name, a single variadic
parameter of type `Never[]`, return type `Any`, with the conflict message
attached as a warning. -/
def createNeverFunction (original : Fn) (base : BaseClass) (message : Option String) : Fn :=
  { name := original.name
    kind := neverFnKind original
    parameters := [neverParam]
    output_parameters := []
    return_type := TypeExpr.any
    isIntrospectable := true
    ownerIsClass := if isCtor original then decide (base.kind = ClassKind.classKind)
                    else original.ownerIsClass
    warning := message }

/-- The per-element branch of the `reduce` in `filterFunctionConflict`:
omitted on a field/property collision, dropped on the inherited-methods pass,
kept together with a trailing never-overload on a direct conflict, kept alone
otherwise. -/
def filterFunctionConflictStep (isSub : SubtypeFn) (base : BaseClass)
    (conflict_ids : List String) (isInheritedMethods : Bool) (next : Fn) : List Fn :=
  let r := checkFunctionConflicts isSub base next conflict_ids base.type
  if r.shouldOmit then []
  else if r.hasConflict then
    if isInheritedMethods then []
    else [next, createNeverFunction next base r.message]
  else [next]

/-- `filterFunctionConflict` (conflicts.ts). -/
def filterFunctionConflict (isSub : SubtypeFn) (base : BaseClass) (elements : List Fn)
    (conflict_ids : List String) (isInheritedMethods : Bool) : List Fn :=
  (elements.filter (fun m => m.name != "")).foldl
    (fun prev next =>
      prev ++ filterFunctionConflictStep isSub base conflict_ids isInheritedMethods next)
    []

/-- `FilterBehavior` (gir/data.ts). -/
inductive FilterBehavior where
| PRESERVE
| OMIT
deriving DecidableEq

/-- An element fed to `filterConflicts`: a field, a property, or a
function-like class member. -/
inductive Element where
| fieldE : FieldData → Element
| propE : PropData → Element
| fnE : Fn → Element
deriving DecidableEq

/-- The name of an element. -/
def Element.name : Element → String
| Element.fieldE f => f.name
| Element.propE p => p.name
| Element.fnE f => f.name

/-- `checkFieldConflicts` (conflicts.ts): a property colliding with an
ancestor field is an accessor/property conflict; a field colliding with an
ancestor field of incompatible type is a field-name conflict. -/
def checkFieldConflicts (isSub : SubtypeFn) (c : BaseClass) (element : Element) :
    Option ConflictType :=
  c.parents.findSome? (fun rp =>
    rp.fields.findSome? (fun p =>
      if nameMatches p.name element.name then
        match element with
        | Element.propE _ => some ConflictType.ACCESSOR_PROPERTY_CONFLICT
        | Element.fieldE f =>
          if !(isSub c.type rp.type f.type p.type) then
            some ConflictType.FIELD_NAME_CONFLICT
          else none
        | Element.fnE _ => none
      else none))

/-- `checkPropertyConflicts` (conflicts.ts): a field colliding with a
class-owned ancestor property is a property/accessor conflict; a property
colliding with an ancestor property of incompatible type is a property-name
conflict. -/
def checkPropertyConflicts (isSub : SubtypeFn) (c : BaseClass) (element : Element)
    (thisType : TypeExpr) : Option ConflictType :=
  c.parents.findSome? (fun rp =>
    rp.props.findSome? (fun p =>
      if nameMatches p.name element.name then
        match element with
        | Element.fieldE _ =>
          if p.ownerIsClass then some ConflictType.PROPERTY_ACCESSOR_CONFLICT else none
        | Element.propE pe =>
          if !(isSub thisType rp.type pe.type p.type) then
            some ConflictType.PROPERTY_NAME_CONFLICT
          else none
        | Element.fnE _ => none
      else none))

/-- `checkFunctionNameConflicts` (conflicts.ts): the element's name matches an
ancestor constructor or member; properties and non-class-function elements
conflict outright, class functions conflict when `isConflictingFunction`
says so. -/
def checkFunctionNameConflicts (isSub : SubtypeFn) (c : BaseClass) (element : Element)
    (thisType : TypeExpr) : Option ConflictType :=
  c.parents.findSome? (fun rp =>
    (rp.ctors ++ rp.members).findSome? (fun p =>
      if nameMatches p.name element.name then
        match element with
        | Element.propE _ => some ConflictType.FUNCTION_NAME_CONFLICT
        | Element.fieldE _ => some ConflictType.FUNCTION_NAME_CONFLICT
        | Element.fnE f =>
          if !(instanceOfClassFunction f)
              || isConflictingFunction isSub thisType f rp.type p then
            some ConflictType.FUNCTION_NAME_CONFLICT
          else none
      else none))

/-- `checkVfuncSignatureConflicts` (conflicts.ts): only on interfaces; a
same-named virtual method on a resolved ancestor whose signature conflicts
per `isConflictingFunction` yields a vfunc signature conflict (the source
re-runs the identical check for interface parents). -/
def checkVfuncSignatureConflicts (isSub : SubtypeFn) (c : BaseClass) (element : Fn)
    (thisType : TypeExpr) : Option ConflictType :=
  if !(decide (c.kind = ClassKind.interfaceKind)) then none
  else
    c.parents.findSome? (fun rp =>
      let parentVirtualMethods := rp.members.filter
        (fun m => decide (m.kind = FnKind.virtualMethod) && m.name == element.name)
      if parentVirtualMethods.any
          (fun pm => isConflictingFunction isSub thisType element rp.type pm) then
        some ConflictType.VFUNC_SIGNATURE_CONFLICT
      else if decide (rp.kind = ClassKind.interfaceKind)
          && parentVirtualMethods.any
              (fun pm => isConflictingFunction isSub thisType element rp.type pm) then
        some ConflictType.VFUNC_SIGNATURE_CONFLICT
      else none)

/-- `detectConflictType` (conflicts.ts): field conflicts, then property
conflicts, then (for virtual functions) vfunc signature conflicts, then
function-name conflicts. -/
def detectConflictType (isSub : SubtypeFn) (c : BaseClass) (element : Element)
    (thisType : TypeExpr) : Option ConflictType :=
  match checkFieldConflicts isSub c element with
  | some ct => some ct
  | none =>
    match checkPropertyConflicts isSub c element thisType with
    | some ct => some ct
    | none =>
      let vf := match element with
        | Element.fnE f =>
          if decide (f.kind = FnKind.virtualMethod) then
            checkVfuncSignatureConflicts isSub c f thisType
          else none
        | _ => none
      match vf with
      | some ct => some ct
      | none => checkFunctionNameConflicts isSub c element thisType

/-- `createConflictElement` (conflicts.ts): fields and properties get their
type wrapped in a conflict marker; a virtual function with a vfunc signature
conflict is passed through unchanged; anything else yields nothing. -/
def createConflictElement (element : Element) (ct : ConflictType) : Option Element :=
  match element with
  | Element.fieldE f => some (Element.fieldE { f with type := mkTypeConflict f.type ct })
  | Element.propE p => some (Element.propE { p with type := mkTypeConflict p.type ct })
  | Element.fnE f =>
    if decide (ct = ConflictType.VFUNC_SIGNATURE_CONFLICT)
        && decide (f.kind = FnKind.virtualMethod) then
      some (Element.fnE f)
    else none

/-- The per-element branch of the loop in `filterConflicts`. -/
def filterConflictsStep (isSub : SubtypeFn) (c : BaseClass) (behavior : FilterBehavior)
    (element : Element) : List Element :=
  match detectConflictType isSub c element c.type with
  | some ct =>
    if decide (behavior = FilterBehavior.PRESERVE) then
      match createConflictElement element ct with
      | some ce => [ce]
      | none => [element]
    else []
  | none => [element]

/-- `filterConflicts` (conflicts.ts). -/
def filterConflicts (isSub : SubtypeFn) (c : BaseClass) (elements : List Element)
    (behavior : FilterBehavior) : List Element :=
  (elements.filter (fun e => e.name != "")).foldl
    (fun result e => result ++ filterConflictsStep isSub c behavior e)
    []

/-- The stream of conflict classifications one detector pass reports for a
member list: one `(member name, kind)` record per detected conflict, in
order. -/
def detectorRecords (isSub : SubtypeFn) (c : BaseClass) (elements : List Element) :
    List (String × ConflictType) :=
  (elements.filter (fun e => e.name != "")).filterMap
    (fun e => (detectConflictType isSub c e c.type).map (fun ct => (e.name, ct)))

/-- `hasVfuncSignatureConflicts` (conflicts.ts): an interface has a vfunc
conflict when a virtual method is classified by
`checkVfuncSignatureConflicts`, or when a parent interface carries a
same-named virtual method whose return type differs at all (even a compatible
subtype) or whose signature conflicts. -/
def hasVfuncSignatureConflicts (isSub : SubtypeFn) (interfaceClass : BaseClass) : Bool :=
  let thisType := interfaceClass.type
  let virtualMethods := interfaceClass.members.filter
    (fun m => decide (m.kind = FnKind.virtualMethod))
  if virtualMethods.isEmpty then false
  else if virtualMethods.any (fun vm =>
      decide (checkVfuncSignatureConflicts isSub interfaceClass vm thisType
        = some ConflictType.VFUNC_SIGNATURE_CONFLICT)) then true
  else
    interfaceClass.parents.any (fun parent =>
      decide (parent.kind = ClassKind.interfaceKind)
      && parent.members.any (fun m => decide (m.kind = FnKind.virtualMethod))
      && virtualMethods.any (fun vmethod =>
          (parent.members.filter
              (fun m => decide (m.kind = FnKind.virtualMethod) && m.name == vmethod.name)).any
            (fun parentMethod =>
              decide (vmethod.return_type ≠ parentMethod.return_type)
              || isConflictingFunction isSub thisType vmethod parent.type parentMethod)))

end Conflicts

namespace Resolver

/-- A declaration name, as the sequence of its characters (tokenizing into
raw reference strings is the upstream collaborator's job). -/
abbrev RName := List Char

/-- A class/interface entry of a namespace symbol table, with the names of
the declarations nested inside it. -/
structure ClassEntry where
  name : RName
  nested : List RName
deriving DecidableEq

/-- Modelled from the spec: the per-namespace symbol table the Type Resolver
consults (gir-module.ts / gir.ts, absent from the sources): class entries
with their nested declarations, the global declarations, and the secondary
low-level type-name annotations. -/
structure SymbolTable where
  nsName : RName
  classes : List ClassEntry
  globals : List RName
  ctypeMap : List (RName × RName)
deriving DecidableEq

/-- A raw type reference: an optional explicit namespace qualifier and the
referenced name. -/
structure RawRef where
  qualifier : Option RName
  name : RName
deriving DecidableEq

/-- The outcome of resolution: a scoped identifier (container and nested
name), a global identifier, or the `Any` fallback. -/
inductive Resolved where
| scopedRef : RName → RName → Resolved
| globalRef : RName → Resolved
| anyRef : Resolved
deriving DecidableEq

/-- Modelled from the spec: step 2's candidate decompositions of a compound
name — every class entry whose name is a prefix of the reference and which
owns a nested declaration equal to the remaining suffix. -/
def prefixSplits (tbl : SymbolTable) (ref : RName) : List (RName × RName) :=
  tbl.classes.filterMap (fun c =>
    if c.name.isPrefixOf ref && c.nested.contains (ref.drop c.name.length) then
      some (c.name, ref.drop c.name.length)
    else none)

/-- The candidate with the longest container prefix (earlier candidates win
ties). -/
def pickLongest : List (RName × RName) → Option (RName × RName)
| [] => none
| x :: xs =>
  match pickLongest xs with
  | none => some x
  | some b => if b.1.length > x.1.length then some b else some x

/-- Step 2's tie-break: the longest matching class-name prefix wins. -/
def longestSplit (tbl : SymbolTable) (ref : RName) : Option (RName × RName) :=
  pickLongest (prefixSplits tbl ref)

/-- Modelled from the spec: resolution steps 2-5 of the Type Resolver
(section 4.1) for an unqualified name — compound scoped-name splitting with
the longest-prefix tie-break, then the c:type annotation fallback, then the
global declarations, then the `Any` fallback. -/
def resolveUnqualified (tbl : SymbolTable) (n : RName) : Resolved :=
  match longestSplit tbl n with
  | some cd => Resolved.scopedRef cd.1 cd.2
  | none =>
    match tbl.ctypeMap.lookup n with
    | some g =>
      if tbl.globals.contains g then Resolved.globalRef g
      else if tbl.globals.contains n then Resolved.globalRef n
      else Resolved.anyRef
    | none =>
      if tbl.globals.contains n then Resolved.globalRef n
      else Resolved.anyRef

/-- Modelled from the spec: the full ordered resolution algorithm of section
4.1, first match wins; step 1 is the exact namespace-qualified match. -/
def resolveRef (tbl : SymbolTable) (r : RawRef) : Resolved :=
  match r.qualifier with
  | some q =>
    if q == tbl.nsName && tbl.globals.contains r.name then Resolved.globalRef r.name
    else resolveUnqualified tbl r.name
  | none => resolveUnqualified tbl r.name

end Resolver

namespace Hooks

open Conflicts

/-- The per-namespace model a patch hook mutates: the namespace's classes. -/
structure HNamespace where
  classes : List ClassData
deriving DecidableEq

/-- `namespace.getClass(name)`. -/
def getClass (ns : HNamespace) (name : String) : Option ClassData :=
  ns.classes.find? (fun c => c.name == name)

/-- `namespace.assertClass(name)`: throws when the class is absent. -/
def assertClass (ns : HNamespace) (name : String) : Except String ClassData :=
  match getClass ns name with
  | some c => Except.ok c
  | none => Except.error ("class not found: " ++ name)

/-- Rewrite a named class through an update function. -/
def updateClass (name : String) (f : ClassData → ClassData) (ns : HNamespace) : HNamespace :=
  { classes := ns.classes.map (fun c => if c.name == name then f c else c) }

/-- Replace the type of the first parameter named `func` (the
`parameters.find` plus in-place overwrite of the gpseq injection). -/
def replaceFirstFuncParam (newType : TypeExpr) : List Param → List Param
| [] => []
| p :: ps =>
  if p.name == "func" then { p with type := newType } :: ps
  else p :: replaceFirstFuncParam newType ps

/-- Patch one virtual method of the gpseq injection: when the member carries
the given name, its first `func` parameter is retargeted at the scoped
callback type. -/
def fixVfunc (vfName : String) (newType : TypeExpr) (m : Fn) : Fn :=
  if m.name == vfName then { m with parameters := replaceFirstFuncParam newType m.parameters }
  else m

/-- The Gpseq injection modifier (injections/gpseq.ts): when a `Result`
declaration exists, the `func` parameters of its `vfunc_flat_map` and
`vfunc_map` members are overwritten with the scoped `Result.FlatMapFunc` and
`Result.MapFunc` identifiers; when it is absent the hook returns early.  The
source wraps the whole body in a try/catch that logs and continues, so the
modifier is total. -/
def gpseqModifier (ns : HNamespace) : HNamespace :=
  match getClass ns "Result" with
  | none => ns
  | some _ =>
    updateClass "Result"
      (fun c =>
        let ms1 := c.members.map
          (fixVfunc "vfunc_flat_map" (TypeExpr.moduleIdent "Gpseq" "Result" "FlatMapFunc"))
        let ms2 := ms1.map
          (fixVfunc "vfunc_map" (TypeExpr.moduleIdent "Gpseq" "Result" "MapFunc"))
        { c with members := ms2 })
      ns

/-- A registered patch hook: a namespace modifier that may throw. -/
abbrev Hook := HNamespace → Except String HNamespace

/-- The Gpseq hook never throws: its body catches its own errors. -/
def gpseqHook : Hook := fun ns => Except.ok (gpseqModifier ns)

/-- `addGeneric` on a class. -/
def addGeneric (g : GenericEntry) (c : ClassData) : ClassData :=
  { c with generics := c.generics ++ [g] }

/-- `updatePropertyType` (generics/clutter.ts): retarget every property with
one of the given names at the new type. -/
def updatePropertyType (propertyNames : List String) (newType : TypeExpr) (c : ClassData) :
    ClassData :=
  { c with props := c.props.map (fun p =>
      if propertyNames.contains p.name then { p with type := newType } else p) }

/-- `applyClutterGenerics` (generics/clutter.ts): asserts the `Actor`,
`Content`, `LayoutManager` and `Clone` classes (throwing when one is
absent), injects generic parameters into `Actor` and `Clone` and retargets
their `layout_manager`, `content` and `source` properties at the new
generic parameters. -/
def applyClutterGenerics (ns : HNamespace) : Except String HNamespace := do
  let actor ← assertClass ns "Actor"
  let content ← assertClass ns "Content"
  let layoutManager ← assertClass ns "LayoutManager"
  let ns1 := updateClass "Actor"
    (fun c =>
      updatePropertyType ["content"] (TypeExpr.generic "B" content.type)
        (updatePropertyType ["layout_manager", "layoutManager"]
          (TypeExpr.generic "A" content.type)
          (addGeneric { constraint := content.type, deflt := content.type }
            (addGeneric { constraint := layoutManager.type, deflt := layoutManager.type } c))))
    ns
  let _clone ← assertClass ns1 "Clone"
  pure (updateClass "Clone"
    (fun c =>
      updatePropertyType ["source"] (TypeExpr.generic "A" content.type)
        (addGeneric { constraint := actor.type, deflt := actor.type } c))
    ns1)

/-- The Clutter hook (generics/clutter.ts): a no-op unless generic inference
is enabled; its body can throw when an expected class is absent. -/
def clutterHook (inferGenerics : Bool) : Hook := fun ns =>
  if !inferGenerics then Except.ok ns
  else applyClutterGenerics ns

/-- Modelled from the spec: the hook runner (injections/inject.ts, absent
from the sources); section 7(4): a hook error is caught, logged and the hook
skipped, leaving the namespace as it was. -/
def applyHook (h : Hook) (ns : HNamespace) : HNamespace × List String :=
  match h ns with
  | Except.ok n => (n, [])
  | Except.error e => (ns, [e])

/-- Run every registered hook over one namespace, accumulating the log. -/
def runHooks (hs : List Hook) (ns : HNamespace) : HNamespace × List String :=
  hs.foldl
    (fun acc h =>
      let r := applyHook h acc.1
      (r.1, acc.2 ++ r.2))
    (ns, [])

/-- The patch-hook stage of the pipeline: every namespace is processed. -/
def pipeline (hs : List Hook) (nss : List HNamespace) : List (HNamespace × List String) :=
  nss.map (runHooks hs)

end Hooks

namespace Scen

open Conflicts

/-- A purely structural subtype function: equal types only. -/
def isSubEq : SubtypeFn := fun _ _ a b => decide (a = b)

/-- Remove every conflict marker from the head of a type expression. -/
def stripConflicts : TypeExpr → TypeExpr
| TypeExpr.conflict t _ => stripConflicts t
| t => t

/-- A subtype function that reads through conflict markers on the candidate
subtype, then compares structurally. -/
def isSubUnwrap : SubtypeFn := fun _ _ a b => decide (stripConflicts a = b)

/-- The `Gee.Collection` identifier of scenario A. -/
def collectionType : TypeExpr := TypeExpr.ident "Gee" "Collection"

/-- The `Gee.List` identifier of scenario A. -/
def listType : TypeExpr := TypeExpr.ident "Gee" "List"

/-- A subtype function under which `Gee.List` is a strict compatible subtype
of `Gee.Collection`. -/
def isSubA : SubtypeFn := fun _ _ a b =>
  decide (a = b) || (decide (a = listType) && decide (b = collectionType))

/-- `Collection.vfunc_get_view() -> Collection`. -/
def vfuncGetViewCollection : Fn :=
  { name := "vfunc_get_view", kind := FnKind.virtualMethod, parameters := []
    output_parameters := [], return_type := collectionType
    isIntrospectable := true, ownerIsClass := false, warning := none }

/-- `List.vfunc_get_view() -> List`: identical but for the covariant return. -/
def vfuncGetViewList : Fn := { vfuncGetViewCollection with return_type := listType }

/-- The resolved `Gee.Collection` interface. -/
def collectionData : ClassData :=
  { name := "Collection", namespaceName := "Gee", kind := ClassKind.interfaceKind
    type := collectionType, ctors := [], members := [vfuncGetViewCollection]
    props := [], fields := [], generics := [] }

/-- The `Gee.List` interface extending `Gee.Collection`. -/
def listIface : BaseClass :=
  { name := "List", namespaceName := "Gee", kind := ClassKind.interfaceKind
    type := listType, ctors := [], members := [vfuncGetViewList]
    props := [], fields := [], generics := [], parents := [collectionData] }

/-- A string-ish type for scenario B. -/
def strType : TypeExpr := TypeExpr.ident "GLib" "utf8"

/-- `Base`'s property `x: string` (owned by a class). -/
def basePropX : PropData := { name := "x", type := strType, ownerIsClass := true }

/-- The resolved ancestor `Base` of scenario B. -/
def baseData : ClassData :=
  { name := "Base", namespaceName := "Test", kind := ClassKind.classKind
    type := TypeExpr.ident "Test" "Base", ctors := [], members := []
    props := [basePropX], fields := [], generics := [] }

/-- `Derived`'s field `x: string`. -/
def derivedFieldX : FieldData := { name := "x", type := strType }

/-- The class `Derived` of scenario B, with `Base` as its only ancestor. -/
def derivedClass : BaseClass :=
  { name := "Derived", namespaceName := "Test", kind := ClassKind.classKind
    type := TypeExpr.ident "Test" "Derived", ctors := [], members := []
    props := [], fields := [derivedFieldX], generics := [], parents := [baseData] }

/-- An ancestor field `y` for the property-over-field direction. -/
def ancFieldY : FieldData := { name := "y", type := strType }

/-- An ancestor owning only the field `y`. -/
def ancWithFieldY : ClassData :=
  { name := "Anc", namespaceName := "Test", kind := ClassKind.classKind
    type := TypeExpr.ident "Test" "Anc", ctors := [], members := []
    props := [], fields := [ancFieldY], generics := [] }

/-- A child property `y` colliding with the ancestor field. -/
def childPropY : PropData := { name := "y", type := strType, ownerIsClass := true }

/-- A child class whose property `y` collides with an ancestor field. -/
def childWithPropY : BaseClass :=
  { name := "Child", namespaceName := "Test", kind := ClassKind.classKind
    type := TypeExpr.ident "Test" "Child", ctors := [], members := []
    props := [childPropY], fields := [], generics := [], parents := [ancWithFieldY] }

/-- An integer-ish type for scenario D. -/
def intType : TypeExpr := TypeExpr.ident "GLib" "gint"

/-- A boolean-ish type for scenario D. -/
def boolType : TypeExpr := TypeExpr.ident "GLib" "gboolean"

/-- `Derived.f(a: int) -> bool` of scenario D. -/
def childFnD : Fn :=
  { name := "f", kind := FnKind.method, parameters := [⟨"a", intType, false⟩]
    output_parameters := [], return_type := boolType
    isIntrospectable := true, ownerIsClass := true, warning := none }

/-- The ancestor `f(a: int, b: int) -> bool` of scenario D. -/
def parentFnD : Fn :=
  { childFnD with parameters := [⟨"a", intType, false⟩, ⟨"b", intType, false⟩] }

/-- A child method `bar() -> bool` conflicting with its ancestor's version. -/
def barChild : Fn :=
  { name := "bar", kind := FnKind.method, parameters := [], output_parameters := []
    return_type := boolType, isIntrospectable := true, ownerIsClass := true
    warning := none }

/-- The ancestor `bar() -> int`: an incompatible return type. -/
def barParent : Fn := { barChild with return_type := intType }

/-- The resolved ancestor carrying the incompatible `bar`. -/
def c5ParentData : ClassData :=
  { name := "P", namespaceName := "Test", kind := ClassKind.classKind
    type := TypeExpr.ident "Test" "P", ctors := [], members := [barParent]
    props := [], fields := [], generics := [] }

/-- The class whose `bar` collides with the ancestor's `bar`. -/
def c5Base : BaseClass :=
  { name := "D", namespaceName := "Test", kind := ClassKind.classKind
    type := TypeExpr.ident "Test" "D", ctors := [], members := [barChild]
    props := [], fields := [], generics := [], parents := [c5ParentData] }

/-- A method `foo` colliding only with a same-named field. -/
def fooFn : Fn :=
  { name := "foo", kind := FnKind.method, parameters := [], output_parameters := []
    return_type := boolType, isIntrospectable := true, ownerIsClass := true
    warning := none }

/-- The field `foo` on the same class. -/
def fooField : FieldData := { name := "foo", type := strType }

/-- A class owning both the method `foo` and the field `foo`, with no
ancestors. -/
def c6Base : BaseClass :=
  { name := "W", namespaceName := "Test", kind := ClassKind.classKind
    type := TypeExpr.ident "Test" "W", ctors := [], members := [fooFn]
    props := [], fields := [fooField], generics := [], parents := [] }

/-- The resolved `GObject.Object` ancestor. -/
def gobjectData : ClassData :=
  { name := "Object", namespaceName := "GObject", kind := ClassKind.classKind
    type := TypeExpr.ident "GObject" "Object", ctors := [], members := []
    props := [], fields := [], generics := [] }

/-- A perfectly ordinary method named `connect`. -/
def connectFn : Fn :=
  { name := "connect", kind := FnKind.method, parameters := [], output_parameters := []
    return_type := boolType, isIntrospectable := true, ownerIsClass := true
    warning := none }

/-- A class rooted at GObject.Object declaring `connect`. -/
def c7Rooted : BaseClass :=
  { name := "Widget", namespaceName := "Test", kind := ClassKind.classKind
    type := TypeExpr.ident "Test" "Widget", ctors := [], members := [connectFn]
    props := [], fields := [], generics := [], parents := [gobjectData] }

/-- The same class without the GObject.Object root. -/
def c7Plain : BaseClass :=
  { name := "Widget", namespaceName := "Test", kind := ClassKind.classKind
    type := TypeExpr.ident "Test" "Widget", ctors := [], members := [connectFn]
    props := [], fields := [], generics := [], parents := [] }

/-- A non-introspectable method with a thoroughly incompatible ancestor
counterpart. -/
def hiddenFn : Fn :=
  { name := "hidden", kind := FnKind.method, parameters := [], output_parameters := []
    return_type := boolType, isIntrospectable := false, ownerIsClass := false
    warning := none }

/-- The introspectable ancestor version of `hidden`, returning `int`. -/
def hiddenParentFn : Fn :=
  { hiddenFn with
    kind := FnKind.virtualMethod
    isIntrospectable := true
    return_type := intType }

/-- The resolved ancestor interface carrying `hidden`. -/
def c10ParentData : ClassData :=
  { name := "Pi", namespaceName := "Test", kind := ClassKind.interfaceKind
    type := TypeExpr.ident "Test" "Pi", ctors := [], members := [hiddenParentFn]
    props := [], fields := [], generics := [] }

/-- An interface whose non-introspectable `hidden` collides with the
ancestor's incompatible version. -/
def c10Iface : BaseClass :=
  { name := "Ci", namespaceName := "Test", kind := ClassKind.interfaceKind
    type := TypeExpr.ident "Test" "Ci", ctors := [], members := [hiddenFn]
    props := [], fields := [], generics := [], parents := [c10ParentData] }

/-- The Gpseq `Result` class entry of the resolver scenario. -/
def gpseqResultEntry : Resolver.ClassEntry :=
  { name := "Result".toList, nested := ["FlatMapFunc".toList, "MapFunc".toList] }

/-- The nested callback name of the resolver scenario. -/
def flatMapName : Resolver.RName := "FlatMapFunc".toList

/-- The Gpseq symbol table: `Result` owns a nested `FlatMapFunc`, while a
global `ResultFlatMapFunc` declaration also exists. -/
def gpseqTbl : Resolver.SymbolTable :=
  { nsName := "Gpseq".toList
    classes := [gpseqResultEntry]
    globals := ["ResultFlatMapFunc".toList, "FlatMapFunc".toList]
    ctypeMap := [] }

/-- A namespace with no classes at all. -/
def emptyNs : Hooks.HNamespace := { classes := [] }

end Scen

namespace Conflicts

/-- When every value an option-valued function can produce on a list is the
same `v` and it produces one somewhere, `findSome?` returns `v`. -/
theorem findSome?_all_eq {α β : Type} (f : α → Option β) (v : β) :
    ∀ (l : List α), (∀ x ∈ l, f x = none ∨ f x = some v) →
    (∃ x ∈ l, f x = some v) → l.findSome? f = some v := by
  intro l
  induction l with
  | nil => intro _ hex; simp at hex
  | cons a t ih =>
    intro hall hex
    rw [List.findSome?_cons]
    cases hfa : f a with
    | some b =>
      rcases hall a (List.mem_cons_self a t) with h | h
      · rw [hfa] at h; cases h
      · rw [hfa] at h; cases h; rfl
    | none =>
      apply ih
      · intro x hx; exact hall x (List.mem_cons_of_mem a hx)
      · rcases hex with ⟨x, hx, hfx⟩
        rcases List.mem_cons.mp hx with rfl | hx
        · rw [hfa] at hfx; cases hfx
        · exact ⟨x, hx, hfx⟩

/-- A function whose values all sit in `{none, some v}` transfers that shape
to `findSome?`. -/
theorem findSome?_shape {α β : Type} (f : α → Option β) (v : β)
    (h : ∀ x, f x = none ∨ f x = some v) :
    ∀ l : List α, l.findSome? f = none ∨ l.findSome? f = some v := by
  intro l
  induction l with
  | nil => exact Or.inl rfl
  | cons a t ih =>
    rw [List.findSome?_cons]
    rcases h a with ha | ha
    · rw [ha]; exact ih
    · rw [ha]; exact Or.inr rfl

/-- A function whose values all sit in `{none, some v}` and which fires
somewhere on the list makes `findSome?` return `v`. -/
theorem findSome?_eq_const {α β : Type} (f : α → Option β) (v : β)
    (h : ∀ x, f x = none ∨ f x = some v) :
    ∀ l : List α, (∃ x ∈ l, f x ≠ none) → l.findSome? f = some v := by
  intro l
  induction l with
  | nil => intro hex; simp at hex
  | cons a t ih =>
    intro hex
    rw [List.findSome?_cons]
    cases hfa : f a with
    | some b =>
      rcases h a with ha | ha
      · rw [hfa] at ha; cases ha
      · rw [hfa] at ha; cases ha; rfl
    | none =>
      apply ih
      rcases hex with ⟨x, hx, hfx⟩
      rcases List.mem_cons.mp hx with rfl | hx
      · exact absurd hfa hfx
      · exact ⟨x, hx, hfx⟩

/-- Folding list-append over a list is flat-mapping. -/
theorem foldl_append_flatMap {α β : Type} (f : α → List β) :
    ∀ (l : List α) (acc : List β),
    l.foldl (fun p n => p ++ f n) acc = acc ++ l.flatMap f := by
  intro l
  induction l with
  | nil => intro acc; simp
  | cons a t ih => intro acc; simp [ih, List.append_assoc]

/-- `filterFunctionConflict` is the flat-map of its per-element branch over
the named elements. -/
theorem filterFunctionConflict_eq_flatMap (isSub : SubtypeFn) (base : BaseClass)
    (elements : List Fn) (conflict_ids : List String) (isInheritedMethods : Bool) :
    filterFunctionConflict isSub base elements conflict_ids isInheritedMethods
      = (elements.filter (fun m => m.name != "")).flatMap
          (filterFunctionConflictStep isSub base conflict_ids isInheritedMethods) := by
  unfold filterFunctionConflict
  rw [foldl_append_flatMap]
  rfl

/-- `filterConflicts` is the flat-map of its per-element branch over the
named elements. -/
theorem filterConflicts_eq_flatMap (isSub : SubtypeFn) (c : BaseClass)
    (elements : List Element) (behavior : FilterBehavior) :
    filterConflicts isSub c elements behavior
      = (elements.filter (fun e => e.name != "")).flatMap
          (filterConflictsStep isSub c behavior) := by
  unfold filterConflicts
  rw [foldl_append_flatMap]
  rfl

/-- Re-marking a marked type replaces the marker: construction never nests. -/
theorem mkTypeConflict_mkTypeConflict (t : TypeExpr) (k k' : ConflictType) :
    mkTypeConflict (mkTypeConflict t k) k' = mkTypeConflict t k' := by
  cases t <;> rfl

/-- A subtype function that reads through a single conflict marker also reads
through marker construction. -/
theorem isSub_mkTypeConflict (isSub : SubtypeFn)
    (hInv : ∀ a b t k u, isSub a b (TypeExpr.conflict t k) u = isSub a b t u) :
    ∀ a b t k u, isSub a b (mkTypeConflict t k) u = isSub a b t u := by
  intro a b t k u
  cases t with
  | conflict i k0 =>
    show isSub a b (TypeExpr.conflict i k) u = isSub a b (TypeExpr.conflict i k0) u
    rw [hInv, hInv]
  | _ => exact hInv a b _ k u

/-- Wrapping a field's type in a conflict marker does not change what
`checkFieldConflicts` detects, for a marker-transparent subtype function. -/
theorem checkFieldConflicts_wrap (isSub : SubtypeFn)
    (hInv : ∀ a b t k u, isSub a b (TypeExpr.conflict t k) u = isSub a b t u)
    (c : BaseClass) (f : FieldData) (ct : ConflictType) :
    checkFieldConflicts isSub c (Element.fieldE { f with type := mkTypeConflict f.type ct })
      = checkFieldConflicts isSub c (Element.fieldE f) := by
  unfold checkFieldConflicts
  congr 1
  funext rp
  congr 1
  funext p
  show (if nameMatches p.name f.name then
          if !(isSub c.type rp.type (mkTypeConflict f.type ct) p.type) then
            some ConflictType.FIELD_NAME_CONFLICT
          else none
        else none)
      = (if nameMatches p.name f.name then
          if !(isSub c.type rp.type f.type p.type) then
            some ConflictType.FIELD_NAME_CONFLICT
          else none
        else none)
  rw [isSub_mkTypeConflict isSub hInv]

/-- Wrapping a property's type in a conflict marker does not change what
`checkPropertyConflicts` detects, for a marker-transparent subtype function. -/
theorem checkPropertyConflicts_wrap (isSub : SubtypeFn)
    (hInv : ∀ a b t k u, isSub a b (TypeExpr.conflict t k) u = isSub a b t u)
    (c : BaseClass) (p0 : PropData) (ct : ConflictType) (tT : TypeExpr) :
    checkPropertyConflicts isSub c
        (Element.propE { p0 with type := mkTypeConflict p0.type ct }) tT
      = checkPropertyConflicts isSub c (Element.propE p0) tT := by
  unfold checkPropertyConflicts
  congr 1
  funext rp
  congr 1
  funext p
  show (if nameMatches p.name p0.name then
          if !(isSub tT rp.type (mkTypeConflict p0.type ct) p.type) then
            some ConflictType.PROPERTY_NAME_CONFLICT
          else none
        else none)
      = (if nameMatches p.name p0.name then
          if !(isSub tT rp.type p0.type p.type) then
            some ConflictType.PROPERTY_NAME_CONFLICT
          else none
        else none)
  rw [isSub_mkTypeConflict isSub hInv]

/-- The detector classifies a marker-wrapped field exactly as the original. -/
theorem detectConflictType_wrap_field (isSub : SubtypeFn)
    (hInv : ∀ a b t k u, isSub a b (TypeExpr.conflict t k) u = isSub a b t u)
    (c : BaseClass) (f : FieldData) (ct : ConflictType) :
    detectConflictType isSub c (Element.fieldE { f with type := mkTypeConflict f.type ct }) c.type
      = detectConflictType isSub c (Element.fieldE f) c.type := by
  unfold detectConflictType
  rw [checkFieldConflicts_wrap isSub hInv]
  rfl

/-- The detector classifies a marker-wrapped property exactly as the
original. -/
theorem detectConflictType_wrap_prop (isSub : SubtypeFn)
    (hInv : ∀ a b t k u, isSub a b (TypeExpr.conflict t k) u = isSub a b t u)
    (c : BaseClass) (p0 : PropData) (ct : ConflictType) :
    detectConflictType isSub c (Element.propE { p0 with type := mkTypeConflict p0.type ct }) c.type
      = detectConflictType isSub c (Element.propE p0) c.type := by
  unfold detectConflictType
  rw [checkPropertyConflicts_wrap isSub hInv]
  rfl

/-- In `PRESERVE` mode the per-element branch of `filterConflicts` emits
exactly one element; it keeps the name, it is classified exactly as the
original, and feeding it back through the branch reproduces it unchanged. -/
theorem filterConflictsStep_stable (isSub : SubtypeFn)
    (hInv : ∀ a b t k u, isSub a b (TypeExpr.conflict t k) u = isSub a b t u)
    (c : BaseClass) (e : Element) :
    ∃ x, filterConflictsStep isSub c FilterBehavior.PRESERVE e = [x]
      ∧ x.name = e.name
      ∧ detectConflictType isSub c x c.type = detectConflictType isSub c e c.type
      ∧ filterConflictsStep isSub c FilterBehavior.PRESERVE x = [x] := by
  cases hd : detectConflictType isSub c e c.type with
  | none =>
    refine ⟨e, ?_, rfl, hd, ?_⟩ <;> simp [filterConflictsStep, hd]
  | some ct =>
    cases e with
    | fieldE f =>
      have hdet : detectConflictType isSub c
          (Element.fieldE { f with type := mkTypeConflict f.type ct }) c.type = some ct := by
        rw [detectConflictType_wrap_field isSub hInv]
        exact hd
      refine ⟨Element.fieldE { f with type := mkTypeConflict f.type ct }, ?_, rfl, hdet, ?_⟩
      · simp [filterConflictsStep, hd, createConflictElement]
      · simp only [filterConflictsStep, hdet, createConflictElement]
        rw [mkTypeConflict_mkTypeConflict]
        rfl
    | propE p0 =>
      have hdet : detectConflictType isSub c
          (Element.propE { p0 with type := mkTypeConflict p0.type ct }) c.type = some ct := by
        rw [detectConflictType_wrap_prop isSub hInv]
        exact hd
      refine ⟨Element.propE { p0 with type := mkTypeConflict p0.type ct }, ?_, rfl, hdet, ?_⟩
      · simp [filterConflictsStep, hd, createConflictElement]
      · simp only [filterConflictsStep, hdet, createConflictElement]
        rw [mkTypeConflict_mkTypeConflict]
        rfl
    | fnE f =>
      have hstep : filterConflictsStep isSub c FilterBehavior.PRESERVE (Element.fnE f)
          = [Element.fnE f] := by
        simp only [filterConflictsStep, hd, createConflictElement]
        by_cases h1 : (decide (ct = ConflictType.VFUNC_SIGNATURE_CONFLICT)
            && decide (f.kind = FnKind.virtualMethod)) = true
        · simp [h1]
        · simp [h1]
      exact ⟨Element.fnE f, hstep, rfl, hd, hstep⟩

/-- Ancillary record map: the conflict record one element contributes. -/
theorem flatMapStep_props (isSub : SubtypeFn)
    (hInv : ∀ a b t k u, isSub a b (TypeExpr.conflict t k) u = isSub a b t u)
    (c : BaseClass) :
    ∀ (l : List Element), (∀ e ∈ l, (e.name != "") = true) →
    ((l.flatMap (filterConflictsStep isSub c FilterBehavior.PRESERVE)).filter
        (fun e => e.name != "")
      = l.flatMap (filterConflictsStep isSub c FilterBehavior.PRESERVE))
    ∧ ((l.flatMap (filterConflictsStep isSub c FilterBehavior.PRESERVE)).flatMap
        (filterConflictsStep isSub c FilterBehavior.PRESERVE)
      = l.flatMap (filterConflictsStep isSub c FilterBehavior.PRESERVE))
    ∧ ((l.flatMap (filterConflictsStep isSub c FilterBehavior.PRESERVE)).filterMap
        (fun e => (detectConflictType isSub c e c.type).map (fun ct => (e.name, ct)))
      = l.filterMap
        (fun e => (detectConflictType isSub c e c.type).map (fun ct => (e.name, ct)))) := by
  intro l
  induction l with
  | nil => intro _; refine ⟨rfl, rfl, rfl⟩
  | cons a t ih =>
    intro hn
    obtain ⟨ih1, ih2, ih3⟩ := ih (fun e he => hn e (List.mem_cons_of_mem a he))
    obtain ⟨x, hx, hxn, hxd, hxs⟩ := filterConflictsStep_stable isSub hInv c a
    have hxname : (x.name != "") = true := by rw [hxn]; exact hn a (List.mem_cons_self a t)
    refine ⟨?_, ?_, ?_⟩
    · rw [List.flatMap_cons, hx]
      show (x :: t.flatMap (filterConflictsStep isSub c FilterBehavior.PRESERVE)).filter
          (fun e => e.name != "") = _
      rw [List.filter_cons]
      simp only [hxname, if_true]
      rw [ih1]
      rfl
    · rw [List.flatMap_cons, hx]
      show (x :: t.flatMap (filterConflictsStep isSub c FilterBehavior.PRESERVE)).flatMap
          (filterConflictsStep isSub c FilterBehavior.PRESERVE) = _
      rw [List.flatMap_cons, hxs, ih2]
    · rw [List.flatMap_cons, hx]
      show (x :: t.flatMap (filterConflictsStep isSub c FilterBehavior.PRESERVE)).filterMap
          (fun e => (detectConflictType isSub c e c.type).map (fun ct => (e.name, ct))) = _
      rw [List.filterMap_cons, List.filterMap_cons, ih3, hxd, hxn]

end Conflicts

open Conflicts

/-- C8: running the conflict detection-and-annotation pass (`filterConflicts`
in `PRESERVE` mode) a second time over the already-annotated member list
reproduces that list exactly — in particular no member's type is wrapped in
a second conflict marker — and the second pass reports exactly the same
conflict records as the first, for any subtype function that reads a
conflict-marked type as the type it carries. -/
theorem c8_conflict_idempotence (isSub : SubtypeFn)
    (hInv : ∀ a b t k u, isSub a b (TypeExpr.conflict t k) u = isSub a b t u)
    (c : BaseClass) (elements : List Element) :
    filterConflicts isSub c (filterConflicts isSub c elements FilterBehavior.PRESERVE)
        FilterBehavior.PRESERVE
      = filterConflicts isSub c elements FilterBehavior.PRESERVE
    ∧ detectorRecords isSub c (filterConflicts isSub c elements FilterBehavior.PRESERVE)
      = detectorRecords isSub c elements := by
  have hl : ∀ e ∈ elements.filter (fun e => e.name != ""), (e.name != "") = true := by
    intro e he
    exact (List.mem_filter.mp he).2
  obtain ⟨h1, h2, h3⟩ :=
    flatMapStep_props isSub hInv c (elements.filter (fun e => e.name != "")) hl
  have e1 : filterConflicts isSub c elements FilterBehavior.PRESERVE
      = (elements.filter (fun e => e.name != "")).flatMap
          (filterConflictsStep isSub c FilterBehavior.PRESERVE) :=
    filterConflicts_eq_flatMap isSub c elements FilterBehavior.PRESERVE
  constructor
  · rw [e1, filterConflicts_eq_flatMap, h1, h2]
  · rw [e1]
    unfold detectorRecords
    rw [h1, h3]

/-- C8 witness: the idempotence theorem applied to the scenario-B model with
a concrete marker-transparent subtype function. -/
theorem c8_conflict_idempotence_witness :
    filterConflicts Scen.isSubUnwrap Scen.derivedClass
        (filterConflicts Scen.isSubUnwrap Scen.derivedClass
          [Element.fieldE Scen.derivedFieldX] FilterBehavior.PRESERVE)
        FilterBehavior.PRESERVE
      = filterConflicts Scen.isSubUnwrap Scen.derivedClass
          [Element.fieldE Scen.derivedFieldX] FilterBehavior.PRESERVE
    ∧ detectorRecords Scen.isSubUnwrap Scen.derivedClass
        (filterConflicts Scen.isSubUnwrap Scen.derivedClass
          [Element.fieldE Scen.derivedFieldX] FilterBehavior.PRESERVE)
      = detectorRecords Scen.isSubUnwrap Scen.derivedClass
          [Element.fieldE Scen.derivedFieldX] :=
  c8_conflict_idempotence Scen.isSubUnwrap (fun _ _ _ _ _ => rfl) Scen.derivedClass
    [Element.fieldE Scen.derivedFieldX]

/-- C2 counterexample: in scenario A (`List.vfunc_get_view() -> List`
overriding `Collection.vfunc_get_view() -> Collection`, where `List` is a
strict compatible subtype of `Collection`), the per-member classifier
`checkVfuncSignatureConflicts` — and with it the whole classification pass
`detectConflictType` — emits no `VFUNC_SIGNATURE_CONFLICT`, contradicting
the claim that any signature difference, covariant return included, is so
classified. -/
theorem c2_vfunc_covariant_counterexample :
    Scen.isSubA Scen.listType Scen.collectionType Scen.listType Scen.collectionType = true
    ∧ Scen.listType ≠ Scen.collectionType
    ∧ checkVfuncSignatureConflicts Scen.isSubA Scen.listIface Scen.vfuncGetViewList
        Scen.listIface.type = none
    ∧ detectConflictType Scen.isSubA Scen.listIface (Element.fnE Scen.vfuncGetViewList)
        Scen.listIface.type = none :=
  ⟨rfl, by decide, by decide, by decide⟩

/-- C2 (amended): a virtual function on an interface whose return type
differs at all from a same-named virtual function of an ancestor interface —
including a strict compatible subtype — makes the interface-level check
`hasVfuncSignatureConflicts` report a conflict (so the generator falls back
to per-signature overloads), even though the per-member classifier exempts
compatible-subtype returns. -/
theorem c2_vfunc_return_difference_flags_interface (isSub : SubtypeFn) (c : BaseClass)
    (parent : ClassData) (vm pm : Fn)
    (hp : parent ∈ c.parents) (hpk : parent.kind = ClassKind.interfaceKind)
    (hvm : vm ∈ c.members) (hvk : vm.kind = FnKind.virtualMethod)
    (hpm : pm ∈ parent.members) (hpmk : pm.kind = FnKind.virtualMethod)
    (hname : pm.name = vm.name) (hret : vm.return_type ≠ pm.return_type) :
    hasVfuncSignatureConflicts isSub c = true := by
  have hvmem : vm ∈ c.members.filter (fun m => decide (m.kind = FnKind.virtualMethod)) :=
    List.mem_filter.mpr ⟨hvm, by simp [hvk]⟩
  have hne : (c.members.filter (fun m => decide (m.kind = FnKind.virtualMethod))).isEmpty
      = false := by
    cases hft : c.members.filter (fun m => decide (m.kind = FnKind.virtualMethod)) with
    | nil => rw [hft] at hvmem; exact absurd hvmem (List.not_mem_nil vm)
    | cons a l => rfl
  have hB : c.parents.any (fun parent2 =>
      decide (parent2.kind = ClassKind.interfaceKind)
      && parent2.members.any (fun m => decide (m.kind = FnKind.virtualMethod))
      && (c.members.filter (fun m => decide (m.kind = FnKind.virtualMethod))).any
          (fun vmethod =>
            (parent2.members.filter
                (fun m => decide (m.kind = FnKind.virtualMethod) && m.name == vmethod.name)).any
              (fun parentMethod =>
                decide (vmethod.return_type ≠ parentMethod.return_type)
                || isConflictingFunction isSub c.type vmethod parent2.type parentMethod)))
      = true := by
    apply List.any_eq_true.mpr
    refine ⟨parent, hp, ?_⟩
    have b1 : decide (parent.kind = ClassKind.interfaceKind) = true := by simp [hpk]
    have b2 : parent.members.any (fun m => decide (m.kind = FnKind.virtualMethod)) = true :=
      List.any_eq_true.mpr ⟨pm, hpm, by simp [hpmk]⟩
    have b3 : (c.members.filter (fun m => decide (m.kind = FnKind.virtualMethod))).any
        (fun vmethod =>
          (parent.members.filter
              (fun m => decide (m.kind = FnKind.virtualMethod) && m.name == vmethod.name)).any
            (fun parentMethod =>
              decide (vmethod.return_type ≠ parentMethod.return_type)
              || isConflictingFunction isSub c.type vmethod parent.type parentMethod)) = true := by
      apply List.any_eq_true.mpr
      refine ⟨vm, hvmem, ?_⟩
      apply List.any_eq_true.mpr
      refine ⟨pm, List.mem_filter.mpr ⟨hpm, by simp [hpmk, hname]⟩, ?_⟩
      simp [hret]
    rw [b1, b2, b3]
    rfl
  simp only [hasVfuncSignatureConflicts, hne]
  rw [if_neg (by simp)]
  by_cases hA : (c.members.filter (fun m => decide (m.kind = FnKind.virtualMethod))).any
      (fun vm2 => decide (checkVfuncSignatureConflicts isSub c vm2 c.type
        = some ConflictType.VFUNC_SIGNATURE_CONFLICT)) = true
  · rw [if_pos hA]
  · rw [if_neg (by simp [hA])]
    exact hB

/-- C2 witness: in scenario A the return types differ and the amended
theorem makes `hasVfuncSignatureConflicts` report the conflict. -/
theorem c2_vfunc_return_difference_flags_interface_witness :
    Scen.collectionData ∈ Scen.listIface.parents
    ∧ Scen.vfuncGetViewList.return_type ≠ Scen.vfuncGetViewCollection.return_type
    ∧ hasVfuncSignatureConflicts Scen.isSubA Scen.listIface = true :=
  ⟨by decide, by decide,
   c2_vfunc_return_difference_flags_interface Scen.isSubA Scen.listIface Scen.collectionData
     Scen.vfuncGetViewList Scen.vfuncGetViewCollection (by decide) rfl (by decide) rfl
     (by decide) rfl rfl (by decide)⟩

/-- C3 counterexample: scenario B — class `Derived` declares field `x`,
ancestor class `Base` declares property `x` of the very same type — is
classified `PROPERTY_ACCESSOR_CONFLICT`, a distinct kind from the
`ACCESSOR_PROPERTY_CONFLICT` the claim requires. -/
theorem c3_field_vs_class_property_counterexample :
    detectConflictType Scen.isSubEq Scen.derivedClass (Element.fieldE Scen.derivedFieldX)
        Scen.derivedClass.type = some ConflictType.PROPERTY_ACCESSOR_CONFLICT
    ∧ ConflictType.PROPERTY_ACCESSOR_CONFLICT ≠ ConflictType.ACCESSOR_PROPERTY_CONFLICT
    ∧ Scen.derivedFieldX.type = Scen.basePropX.type :=
  ⟨by decide, by decide, rfl⟩

/-- C3 (amended): a property colliding with an ancestor field is classified
`ACCESSOR_PROPERTY_CONFLICT` regardless of type compatibility; in the other
direction a field colliding with an ancestor property is classified
`PROPERTY_ACCESSOR_CONFLICT` — and only when the ancestor property is owned
by a class (here stated with no ancestor field of the same name, so the
field-conflict check passes first).  Neither direction is ever
`FIELD_NAME_CONFLICT`. -/
theorem c3_mixed_field_property_kinds (isSub : SubtypeFn) :
    (∀ (c : BaseClass) (pe : PropData) (parent : ClassData) (fld : FieldData),
      parent ∈ c.parents → fld ∈ parent.fields → fld.name = pe.name → pe.name ≠ "" →
      detectConflictType isSub c (Element.propE pe) c.type
        = some ConflictType.ACCESSOR_PROPERTY_CONFLICT)
    ∧ (∀ (c : BaseClass) (fe : FieldData) (parent : ClassData) (p : PropData),
      (∀ rp ∈ c.parents, ∀ fld ∈ rp.fields, fld.name ≠ fe.name) →
      parent ∈ c.parents → p ∈ parent.props → p.name = fe.name → fe.name ≠ "" →
      p.ownerIsClass = true →
      detectConflictType isSub c (Element.fieldE fe) c.type
        = some ConflictType.PROPERTY_ACCESSOR_CONFLICT) := by
  constructor
  · intro c pe parent fld hp hf hn hne
    have hshape : ∀ p2 : FieldData,
        (if nameMatches p2.name (Element.propE pe).name then
          some ConflictType.ACCESSOR_PROPERTY_CONFLICT
        else none) = none
        ∨ (if nameMatches p2.name (Element.propE pe).name then
          some ConflictType.ACCESSOR_PROPERTY_CONFLICT
        else none) = some ConflictType.ACCESSOR_PROPERTY_CONFLICT := by
      intro p2
      by_cases hnm : nameMatches p2.name (Element.propE pe).name = true
      · right; simp [hnm]
      · left; simp [hnm]
    have hcf : checkFieldConflicts isSub c (Element.propE pe)
        = some ConflictType.ACCESSOR_PROPERTY_CONFLICT := by
      unfold checkFieldConflicts
      apply findSome?_eq_const _ _ ?_ _ ?_
      · intro rp
        exact findSome?_shape _ _ hshape rp.fields
      · refine ⟨parent, hp, ?_⟩
        have hfire : (if nameMatches fld.name (Element.propE pe).name then
            some ConflictType.ACCESSOR_PROPERTY_CONFLICT
          else none) ≠ none := by
          have : nameMatches fld.name (Element.propE pe).name = true := by
            simp [nameMatches, Element.name, hn, bne_iff_ne, hne]
          simp [this]
        rw [findSome?_eq_const _ _ hshape parent.fields ⟨fld, hf, hfire⟩]
        simp
    unfold detectConflictType
    rw [hcf]
  · intro c fe parent p hnofld hp hpp hn hne howner
    have hcf : checkFieldConflicts isSub c (Element.fieldE fe) = none := by
      unfold checkFieldConflicts
      apply List.findSome?_eq_none_iff.mpr
      intro rp hrp
      apply List.findSome?_eq_none_iff.mpr
      intro fld hfld
      have hneq : fld.name ≠ fe.name := hnofld rp hrp fld hfld
      have : nameMatches fld.name (Element.fieldE fe).name = false := by
        simp [nameMatches, Element.name, hneq]
      simp [this]
    have hshape : ∀ p2 : PropData,
        (if nameMatches p2.name (Element.fieldE fe).name then
          if p2.ownerIsClass then some ConflictType.PROPERTY_ACCESSOR_CONFLICT else none
        else none) = none
        ∨ (if nameMatches p2.name (Element.fieldE fe).name then
          if p2.ownerIsClass then some ConflictType.PROPERTY_ACCESSOR_CONFLICT else none
        else none) = some ConflictType.PROPERTY_ACCESSOR_CONFLICT := by
      intro p2
      by_cases hnm : nameMatches p2.name (Element.fieldE fe).name = true
      · by_cases ho : p2.ownerIsClass = true
        · right; simp [hnm, ho]
        · left; simp [hnm, ho]
      · left; simp [hnm]
    have hpc : checkPropertyConflicts isSub c (Element.fieldE fe) c.type
        = some ConflictType.PROPERTY_ACCESSOR_CONFLICT := by
      unfold checkPropertyConflicts
      apply findSome?_eq_const _ _ ?_ _ ?_
      · intro rp
        exact findSome?_shape _ _ hshape rp.props
      · refine ⟨parent, hp, ?_⟩
        have hfire : (if nameMatches p.name (Element.fieldE fe).name then
            if p.ownerIsClass then some ConflictType.PROPERTY_ACCESSOR_CONFLICT else none
          else none) ≠ none := by
          have hm : nameMatches p.name (Element.fieldE fe).name = true := by
            simp [nameMatches, Element.name, hn, bne_iff_ne, hne]
          simp [hm, howner]
        rw [findSome?_eq_const _ _ hshape parent.props ⟨p, hpp, hfire⟩]
        simp
    unfold detectConflictType
    rw [hcf, hpc]

/-- C3 witness: both directions of the amended theorem at concrete models —
property `y` over ancestor field `y`, and field `x` over ancestor class
property `x`. -/
theorem c3_mixed_field_property_kinds_witness :
    detectConflictType Scen.isSubEq Scen.childWithPropY (Element.propE Scen.childPropY)
        Scen.childWithPropY.type = some ConflictType.ACCESSOR_PROPERTY_CONFLICT
    ∧ detectConflictType Scen.isSubEq Scen.derivedClass (Element.fieldE Scen.derivedFieldX)
        Scen.derivedClass.type = some ConflictType.PROPERTY_ACCESSOR_CONFLICT :=
  ⟨(c3_mixed_field_property_kinds Scen.isSubEq).1 Scen.childWithPropY Scen.childPropY
      Scen.ancWithFieldY Scen.ancFieldY (by decide) (by decide) rfl (by decide),
   (c3_mixed_field_property_kinds Scen.isSubEq).2 Scen.derivedClass Scen.derivedFieldX
      Scen.baseData Scen.basePropX (by decide) (by decide) (by decide) rfl (by decide) rfl⟩

/-- C4: for same-kind function or constructor members, a child override with
at most as many parameters as the ancestor's, pairwise-compatible parameter
types, a compatible return type and matching output parameters is not a
conflict — the parameter-count rule fires only when the child's count
strictly exceeds the parent's. -/
theorem c4_fewer_params_no_conflict (isSub : SubtypeFn) (cT pT : TypeExpr) (child parent : Fn)
    (hkind : child.kind = parent.kind)
    (hlen : child.parameters.length ≤ parent.parameters.length)
    (hret : isSub cT pT child.return_type parent.return_type = true)
    (hparams : ∀ pq ∈ List.zip child.parameters parent.parameters,
      isSub cT pT pq.1.type pq.2.type = true)
    (hout : child.output_parameters.length = parent.output_parameters.length)
    (houts : ∀ pq ∈ List.zip child.output_parameters parent.output_parameters,
      isSub cT pT pq.1.type pq.2.type = true) :
    isConflictingFunction isSub cT child pT parent = false := by
  have hlenb : decide (child.parameters.length > parent.parameters.length) = false := by
    simp [Nat.not_lt.mpr hlen]
  have hretb : (!(isSub cT pT child.return_type parent.return_type)) = false := by
    rw [hret]; rfl
  have hzip : (List.zip child.parameters parent.parameters).any
      (fun pq => !(isSub cT pT pq.1.type pq.2.type)) = false := by
    apply List.any_eq_false.mpr
    intro pq hpq
    rw [hparams pq hpq]
    simp
  have hzipo : (List.zip child.output_parameters parent.output_parameters).any
      (fun pq => !(isSub cT pT pq.1.type pq.2.type)) = false := by
    apply List.any_eq_false.mpr
    intro pq hpq
    rw [houts pq hpq]
    simp
  have houtb : decide (child.output_parameters.length ≠ parent.output_parameters.length)
      = false := by
    simp [hout]
  have hcc : isConstructorConflict isSub cT child pT parent = false := by
    unfold isConstructorConflict
    by_cases hb : (isCtor child && isCtor parent) = true
    · rw [if_pos hb, hlenb, hretb, hzip]
      rfl
    · rw [if_neg hb]
  have hmx : isMixedConstructorFunctionConflict child parent = false := by
    unfold isMixedConstructorFunctionConflict isCtor
    rw [hkind]
    simp
  have hpr : hasParameterOrReturnTypeConflicts isSub cT child pT parent = false := by
    unfold hasParameterOrReturnTypeConflicts
    rw [hlenb, hretb, hzip, hzipo, houtb]
    simp
  unfold isConflictingFunction
  rw [hcc, hmx, hpr]
  by_cases hi : (!parent.isIntrospectable || !child.isIntrospectable) = true
  · simp [hi]
  · simp only [Bool.not_eq_true] at hi
    simp [hi]

/-- C4 witness: scenario D — `Derived.f(a: int) -> bool` against the
ancestor `f(a: int, b: int) -> bool` is not flagged. -/
theorem c4_fewer_params_no_conflict_witness :
    Scen.childFnD.parameters.length ≤ Scen.parentFnD.parameters.length
    ∧ isConflictingFunction Scen.isSubEq Scen.intType Scen.childFnD Scen.intType
        Scen.parentFnD = false :=
  ⟨by decide,
   c4_fewer_params_no_conflict Scen.isSubEq Scen.intType Scen.intType Scen.childFnD
     Scen.parentFnD rfl (by decide) (by decide) (by decide) rfl (by decide)⟩

/-- C5: a member whose conflict comes from a direct ancestor collision (its
name is not in the pre-listed conflict-id set and the pass is not the
inherited-methods one) is kept in the output of `filterFunctionConflict`
with a synthesized never-overload appended immediately after it: same name,
a single variadic parameter of array-of-`Never` type, return type `Any`. -/
theorem c5_never_overload_appended (isSub : SubtypeFn) (base : BaseClass) (m : Fn)
    (ids : List String) (pre post : List Fn)
    (hname : (m.name != "") = true)
    (hid : ids.contains m.name = false)
    (hconf : (findParentFnConflict isSub base m base.type).isSome = true) :
    filterFunctionConflict isSub base (pre ++ m :: post) ids false
      = filterFunctionConflict isSub base pre ids false
        ++ m :: createNeverFunction m base
            (checkFunctionConflicts isSub base m ids base.type).message
        :: filterFunctionConflict isSub base post ids false
    ∧ (createNeverFunction m base
        (checkFunctionConflicts isSub base m ids base.type).message).name = m.name
    ∧ (createNeverFunction m base
        (checkFunctionConflicts isSub base m ids base.type).message).parameters = [neverParam]
    ∧ neverParam.isVarArgs = true
    ∧ neverParam.type = TypeExpr.array TypeExpr.never
    ∧ (createNeverFunction m base
        (checkFunctionConflicts isSub base m ids base.type).message).return_type
      = TypeExpr.any := by
  have hres : (checkFunctionConflicts isSub base m ids base.type).hasConflict = true
      ∧ (checkFunctionConflicts isSub base m ids base.type).shouldOmit = false := by
    unfold checkFunctionConflicts
    rw [hid]
    simp only [hconf]
    constructor
    · simp
    · simp
  have hstep : filterFunctionConflictStep isSub base ids false m
      = [m, createNeverFunction m base
          (checkFunctionConflicts isSub base m ids base.type).message] := by
    simp only [filterFunctionConflictStep]
    rw [hres.2, hres.1]
    rfl
  refine ⟨?_, rfl, rfl, rfl, rfl, rfl⟩
  rw [filterFunctionConflict_eq_flatMap, filterFunctionConflict_eq_flatMap,
    filterFunctionConflict_eq_flatMap, List.filter_append, List.filter_cons]
  simp only [hname, if_true]
  rw [List.flatMap_append, List.flatMap_cons, hstep]
  rfl

/-- C5 witness: `D.bar() -> bool` colliding with the ancestor's
`bar() -> int` is kept and followed by the synthesized never-overload. -/
theorem c5_never_overload_appended_witness :
    filterFunctionConflict Scen.isSubEq Scen.c5Base [Scen.barChild] [] false
      = Scen.barChild
        :: createNeverFunction Scen.barChild Scen.c5Base
            (checkFunctionConflicts Scen.isSubEq Scen.c5Base Scen.barChild [] Scen.c5Base.type).message
        :: []
    ∧ (createNeverFunction Scen.barChild Scen.c5Base
        (checkFunctionConflicts Scen.isSubEq Scen.c5Base Scen.barChild [] Scen.c5Base.type).message).parameters
      = [neverParam] :=
  ⟨((c5_never_overload_appended Scen.isSubEq Scen.c5Base Scen.barChild [] [] []
      (by decide) (by decide) (by decide)).1 : _),
   (c5_never_overload_appended Scen.isSubEq Scen.c5Base Scen.barChild [] [] []
      (by decide) (by decide) (by decide)).2.2.1⟩

/-- C6 counterexample: the method `foo` collides with the same-named field
`foo` on its own class, has no ancestor-function conflict (the class has no
ancestors) and no reserved-name conflict — yet, because its name is in the
pre-listed conflict-id set, `filterFunctionConflict` keeps it (plus a
never-overload) instead of omitting it as the claim requires. -/
theorem c6_conflict_id_overrides_omission_counterexample :
    checkFieldPropertyConflicts Scen.c6Base Scen.fooFn.name = true
    ∧ Scen.c6Base.parents = []
    ∧ checkGObjectConflicts Scen.c6Base Scen.fooFn.name = false
    ∧ filterFunctionConflict Scen.isSubEq Scen.c6Base [Scen.fooFn] ["foo"] false
      = [Scen.fooFn, createNeverFunction Scen.fooFn Scen.c6Base none]
    ∧ filterFunctionConflict Scen.isSubEq Scen.c6Base [Scen.fooFn] ["foo"] false
      ≠ ([] : List Fn) :=
  ⟨by decide, rfl, by decide, by decide, by decide⟩

/-- C6 (amended): a function member whose name collides with a field or
property on its own class or an ancestor, and which has no conflict of its
own — no ancestor-function conflict, no reserved-name conflict, **and no
pre-listed conflict id** — is omitted entirely from the output, on either
pass. -/
theorem c6_field_property_collision_omits (isSub : SubtypeFn) (base : BaseClass) (m : Fn)
    (ids : List String) (flag : Bool) (pre post : List Fn)
    (hname : (m.name != "") = true)
    (hid : ids.contains m.name = false)
    (hfp : checkFieldPropertyConflicts base m.name = true)
    (hnc : findParentFnConflict isSub base m base.type = none)
    (hng : checkGObjectConflicts base m.name = false) :
    filterFunctionConflict isSub base (pre ++ m :: post) ids flag
      = filterFunctionConflict isSub base pre ids flag
        ++ filterFunctionConflict isSub base post ids flag := by
  have homit : (checkFunctionConflicts isSub base m ids base.type).shouldOmit = true := by
    unfold checkFunctionConflicts
    rw [hid]
    simp [hnc, hng, hfp]
  have hstep : filterFunctionConflictStep isSub base ids flag m = [] := by
    simp only [filterFunctionConflictStep]
    rw [homit]
    rfl
  rw [filterFunctionConflict_eq_flatMap, filterFunctionConflict_eq_flatMap,
    filterFunctionConflict_eq_flatMap, List.filter_append, List.filter_cons]
  simp only [hname, if_true]
  rw [List.flatMap_append, List.flatMap_cons, hstep]
  rfl

/-- C6 witness: with an empty conflict-id list the colliding `foo` of the
counterexample model is omitted. -/
theorem c6_field_property_collision_omits_witness :
    checkFieldPropertyConflicts Scen.c6Base Scen.fooFn.name = true
    ∧ filterFunctionConflict Scen.isSubEq Scen.c6Base [Scen.fooFn] [] false = ([] : List Fn) :=
  ⟨by decide,
   c6_field_property_collision_omits Scen.isSubEq Scen.c6Base Scen.fooFn [] false [] []
     (by decide) (by decide) (by decide) (by decide) (by decide)⟩

/-- C7: on a class transitively rooted at GObject.Object, any member whose
name is in the reserved set `{connect, connect_after, emit}` is forced into
a conflict (hence `FUNCTION_NAME_CONFLICT` handling), for every subtype
function; on a class not so rooted, reserved-set membership alone produces
no conflict. -/
theorem c7_gobject_reserved_names (isSub : SubtypeFn) (base : BaseClass) (m : Fn)
    (ids : List String) :
    (base.parents.any (fun p => p.namespaceName == "GObject" && p.name == "Object") = true →
      GOBJECT_RESERVED_METHODS.contains m.name = true →
      (checkFunctionConflicts isSub base m ids base.type).hasConflict = true)
    ∧ (base.parents.any (fun p => p.namespaceName == "GObject" && p.name == "Object") = false →
      ids.contains m.name = false →
      findParentFnConflict isSub base m base.type = none →
      (checkFunctionConflicts isSub base m ids base.type).hasConflict = false) := by
  constructor
  · intro hroot hres
    unfold checkFunctionConflicts
    by_cases hid : ids.contains m.name = true
    · rw [hid]
      rfl
    · rw [Bool.not_eq_true] at hid
      rw [hid]
      have hg : checkGObjectConflicts base m.name = true := by
        unfold checkGObjectConflicts
        rw [hroot, hres]
        rfl
      simp [hg]
  · intro hroot hid hnc
    unfold checkFunctionConflicts
    rw [hid]
    have hg : checkGObjectConflicts base m.name = false := by
      unfold checkGObjectConflicts
      rw [hroot]
      rfl
    simp [hg, hnc]

/-- C7 witness: `connect` on a GObject-rooted class is forced into conflict;
the same member on the same class without the GObject root is not. -/
theorem c7_gobject_reserved_names_witness :
    (checkFunctionConflicts Scen.isSubEq Scen.c7Rooted Scen.connectFn []
        Scen.c7Rooted.type).hasConflict = true
    ∧ (checkFunctionConflicts Scen.isSubEq Scen.c7Plain Scen.connectFn []
        Scen.c7Plain.type).hasConflict = false :=
  ⟨(c7_gobject_reserved_names Scen.isSubEq Scen.c7Rooted Scen.connectFn []).1
      (by decide) (by decide),
   (c7_gobject_reserved_names Scen.isSubEq Scen.c7Plain Scen.connectFn []).2
      (by decide) (by decide) (by decide)⟩

/-- C10: a non-introspectable member on either side makes the comparison
report no conflict, whatever the signatures; consequently a non-
introspectable child can be classified neither `VFUNC_SIGNATURE_CONFLICT`
nor — when it is a class function — `FUNCTION_NAME_CONFLICT` by the
ancestor-comparison checks. -/
theorem c10_non_introspectable_never_conflicts (isSub : SubtypeFn) (cT pT tT : TypeExpr)
    (child parent : Fn) (c : BaseClass) (e : Fn)
    (h : child.isIntrospectable = false ∨ parent.isIntrospectable = false)
    (he : e.isIntrospectable = false) :
    isConflictingFunction isSub cT child pT parent = false
    ∧ checkVfuncSignatureConflicts isSub c e tT = none
    ∧ (instanceOfClassFunction e = true →
        checkFunctionNameConflicts isSub c (Element.fnE e) tT = none) := by
  have key : ∀ (a b : TypeExpr) (p : Fn), isConflictingFunction isSub a e b p = false := by
    intro a b p
    unfold isConflictingFunction
    rw [he]
    simp
  refine ⟨?_, ?_, ?_⟩
  · unfold isConflictingFunction
    rcases h with h | h
    · rw [h]; simp
    · rw [h]; simp
  · unfold checkVfuncSignatureConflicts
    by_cases hk : (!(decide (c.kind = ClassKind.interfaceKind))) = true
    · rw [if_pos hk]
    · rw [if_neg hk]
      apply List.findSome?_eq_none_iff.mpr
      intro rp hrp
      have ha : (rp.members.filter
          (fun m => decide (m.kind = FnKind.virtualMethod) && m.name == e.name)).any
          (fun pm => isConflictingFunction isSub tT e rp.type pm) = false := by
        apply List.any_eq_false.mpr
        intro pm hpm
        rw [key tT rp.type pm]
        simp
      simp [ha]
  · intro hicf
    apply List.findSome?_eq_none_iff.mpr
    intro rp hrp
    apply List.findSome?_eq_none_iff.mpr
    intro p hp
    by_cases hnm : nameMatches p.name (Element.fnE e).name = true
    · simp only [hnm, if_true]
      rw [if_neg]
      simp [hicf, key tT rp.type p]
    · simp [hnm]

/-- C10 witness: the non-introspectable `hidden` against its incompatible
introspectable ancestor version reports no conflict anywhere. -/
theorem c10_non_introspectable_never_conflicts_witness :
    Scen.hiddenFn.isIntrospectable = false
    ∧ isConflictingFunction Scen.isSubEq Scen.c10Iface.type Scen.hiddenFn
        Scen.c10ParentData.type Scen.hiddenParentFn = false
    ∧ checkVfuncSignatureConflicts Scen.isSubEq Scen.c10Iface Scen.hiddenFn
        Scen.c10Iface.type = none
    ∧ checkFunctionNameConflicts Scen.isSubEq Scen.c10Iface (Element.fnE Scen.hiddenFn)
        Scen.c10Iface.type = none :=
  ⟨rfl,
   (c10_non_introspectable_never_conflicts Scen.isSubEq Scen.c10Iface.type
      Scen.c10ParentData.type Scen.c10Iface.type Scen.hiddenFn Scen.hiddenParentFn
      Scen.c10Iface Scen.hiddenFn (Or.inl rfl) rfl).1,
   (c10_non_introspectable_never_conflicts Scen.isSubEq Scen.c10Iface.type
      Scen.c10ParentData.type Scen.c10Iface.type Scen.hiddenFn Scen.hiddenParentFn
      Scen.c10Iface Scen.hiddenFn (Or.inl rfl) rfl).2.1,
   (c10_non_introspectable_never_conflicts Scen.isSubEq Scen.c10Iface.type
      Scen.c10ParentData.type Scen.c10Iface.type Scen.hiddenFn Scen.hiddenParentFn
      Scen.c10Iface Scen.hiddenFn (Or.inl rfl) rfl).2.2 (by decide)⟩

namespace Resolver

/-- `pickLongest` of a nonempty list picks a member maximising the container
prefix length. -/
theorem pickLongest_spec : ∀ (l : List (RName × RName)), l ≠ [] →
    ∃ m, pickLongest l = some m ∧ m ∈ l ∧ ∀ x ∈ l, x.1.length ≤ m.1.length := by
  intro l
  induction l with
  | nil => intro h; exact absurd rfl h
  | cons a t ih =>
    intro _
    cases ht : t with
    | nil =>
      subst ht
      refine ⟨a, rfl, List.mem_cons_self a [], ?_⟩
      intro x hx
      rcases List.mem_singleton.mp hx with rfl
      exact Nat.le_refl _
    | cons b t2 =>
      subst ht
      obtain ⟨m, hm, hmem, hle⟩ := ih (by simp)
      show ∃ mm, (match pickLongest (b :: t2) with
        | none => some a
        | some bb => if bb.1.length > a.1.length then some bb else some a) = some mm
        ∧ mm ∈ a :: b :: t2 ∧ ∀ x ∈ a :: b :: t2, x.1.length ≤ mm.1.length
      rw [hm]
      by_cases hgt : m.1.length > a.1.length
      · refine ⟨m, ?_, List.mem_cons_of_mem a hmem, ?_⟩
        · show (if m.1.length > a.1.length then some m else some a) = some m
          rw [if_pos hgt]
        intro x hx
        rcases List.mem_cons.mp hx with rfl | hx
        · exact Nat.le_of_lt hgt
        · exact hle x hx
      · refine ⟨a, ?_, List.mem_cons_self a _, ?_⟩
        · show (if m.1.length > a.1.length then some m else some a) = some a
          rw [if_neg hgt]
        intro x hx
        rcases List.mem_cons.mp hx with rfl | hx
        · exact Nat.le_refl _
        · exact Nat.le_trans (hle x hx) (Nat.le_of_not_lt hgt)

/-- Every candidate split recomposes to the reference. -/
theorem prefixSplits_append (tbl : SymbolTable) (ref : RName) :
    ∀ p ∈ prefixSplits tbl ref, p.1 ++ p.2 = ref := by
  intro p hp
  unfold prefixSplits at hp
  rw [List.mem_filterMap] at hp
  obtain ⟨c, _, hfc⟩ := hp
  by_cases hcond : (c.name.isPrefixOf ref && c.nested.contains (ref.drop c.name.length)) = true
  · rw [if_pos hcond] at hfc
    injection hfc with h
    subst h
    rw [Bool.and_eq_true] at hcond
    have hpre : c.name <+: ref := List.isPrefixOf_iff_prefix.mp hcond.1
    obtain ⟨t, ht⟩ := hpre
    rw [← ht, List.drop_left]
  · rw [if_neg hcond] at hfc
    cases hfc

/-- A class owning a nested declaration always contributes the corresponding
split of the compound name. -/
theorem mem_prefixSplits (tbl : SymbolTable) (ce : ClassEntry) (d : RName)
    (hce : ce ∈ tbl.classes) (hd : d ∈ ce.nested) :
    (ce.name, d) ∈ prefixSplits tbl (ce.name ++ d) := by
  unfold prefixSplits
  rw [List.mem_filterMap]
  refine ⟨ce, hce, ?_⟩
  have h1 : ce.name.isPrefixOf (ce.name ++ d) = true :=
    List.isPrefixOf_iff_prefix.mpr ⟨d, rfl⟩
  have h2 : (ce.name ++ d).drop ce.name.length = d := List.drop_left ce.name d
  rw [if_pos]
  · rw [h2]
  · rw [h1, h2]
    simp [List.contains, List.elem_iff, hd]

end Resolver

/-- C1: in a namespace whose class `C` owns a nested declaration `D` while a
global declaration named `CD` also exists, resolving the separator-free
compound reference `CD` yields the scoped identifier for the split with the
longest matching class-name prefix — never the global declaration. -/
theorem c1_compound_scoped_resolution (tbl : Resolver.SymbolTable)
    (ce : Resolver.ClassEntry) (d : Resolver.RName)
    (hce : ce ∈ tbl.classes) (hd : d ∈ ce.nested)
    (hg : (ce.name ++ d) ∈ tbl.globals) :
    ∃ cn dn,
      Resolver.resolveRef tbl { qualifier := none, name := ce.name ++ d }
        = Resolver.Resolved.scopedRef cn dn
      ∧ cn ++ dn = ce.name ++ d
      ∧ (cn, dn) ∈ Resolver.prefixSplits tbl (ce.name ++ d)
      ∧ (∀ p ∈ Resolver.prefixSplits tbl (ce.name ++ d), p.1.length ≤ cn.length)
      ∧ Resolver.resolveRef tbl { qualifier := none, name := ce.name ++ d }
        ≠ Resolver.Resolved.globalRef (ce.name ++ d) := by
  have hmem := Resolver.mem_prefixSplits tbl ce d hce hd
  have hne : Resolver.prefixSplits tbl (ce.name ++ d) ≠ [] := List.ne_nil_of_mem hmem
  obtain ⟨m, hm, hmm, hle⟩ := Resolver.pickLongest_spec _ hne
  have hres : Resolver.resolveRef tbl { qualifier := none, name := ce.name ++ d }
      = Resolver.Resolved.scopedRef m.1 m.2 := by
    show Resolver.resolveUnqualified tbl (ce.name ++ d) = _
    unfold Resolver.resolveUnqualified Resolver.longestSplit
    rw [hm]
  refine ⟨m.1, m.2, hres, Resolver.prefixSplits_append tbl _ m hmm, hmm, hle, ?_⟩
  rw [hres]
  intro hcontra
  cases hcontra

/-- C1 witness: the Gpseq table — `Result` owning nested `FlatMapFunc`, a
global `ResultFlatMapFunc` present — resolves `ResultFlatMapFunc` to a
scoped identifier. -/
theorem c1_compound_scoped_resolution_witness :
    Scen.gpseqResultEntry ∈ Scen.gpseqTbl.classes
    ∧ Scen.flatMapName ∈ Scen.gpseqResultEntry.nested
    ∧ (Scen.gpseqResultEntry.name ++ Scen.flatMapName) ∈ Scen.gpseqTbl.globals
    ∧ ∃ cn dn,
      Resolver.resolveRef Scen.gpseqTbl
          { qualifier := none, name := Scen.gpseqResultEntry.name ++ Scen.flatMapName }
        = Resolver.Resolved.scopedRef cn dn
      ∧ cn ++ dn = Scen.gpseqResultEntry.name ++ Scen.flatMapName
      ∧ (cn, dn) ∈ Resolver.prefixSplits Scen.gpseqTbl
          (Scen.gpseqResultEntry.name ++ Scen.flatMapName)
      ∧ (∀ p ∈ Resolver.prefixSplits Scen.gpseqTbl
          (Scen.gpseqResultEntry.name ++ Scen.flatMapName), p.1.length ≤ cn.length)
      ∧ Resolver.resolveRef Scen.gpseqTbl
          { qualifier := none, name := Scen.gpseqResultEntry.name ++ Scen.flatMapName }
        ≠ Resolver.Resolved.globalRef (Scen.gpseqResultEntry.name ++ Scen.flatMapName) :=
  ⟨by decide, by decide, by decide,
   c1_compound_scoped_resolution Scen.gpseqTbl Scen.gpseqResultEntry Scen.flatMapName
     (by decide) (by decide) (by decide)⟩

/-- C9: the patch-hook stage never aborts — the pipeline processes every
namespace regardless of the hooks; the Gpseq hook contains its own errors
(it returns normally on every namespace, including those without a `Result`
declaration); and a Clutter hook applied to a namespace missing the `Actor`
declaration it expects is caught by the runner, logged, and skipped with the
namespace left unchanged. -/
theorem c9_patch_hook_errors_contained :
    (∀ (hooks : List Hooks.Hook) (nss : List Hooks.HNamespace),
      (Hooks.pipeline hooks nss).length = nss.length)
    ∧ (∀ ns : Hooks.HNamespace, ∃ n, Hooks.gpseqHook ns = Except.ok n)
    ∧ (∀ ns : Hooks.HNamespace, Hooks.getClass ns "Actor" = none →
        Hooks.applyHook (Hooks.clutterHook true) ns = (ns, ["class not found: Actor"])) := by
  refine ⟨?_, ?_, ?_⟩
  · intro hooks nss
    simp [Hooks.pipeline]
  · intro ns
    exact ⟨Hooks.gpseqModifier ns, rfl⟩
  · intro ns h
    have hclutter : Hooks.clutterHook true ns = Except.error "class not found: Actor" := by
      show Hooks.applyClutterGenerics ns = _
      unfold Hooks.applyClutterGenerics Hooks.assertClass
      rw [h]
      rfl
    unfold Hooks.applyHook
    rw [hclutter]

/-- C9 witness: the empty namespace has no `Actor`, and the Clutter hook on
it is skipped with its error logged. -/
theorem c9_patch_hook_errors_contained_witness :
    Hooks.getClass Scen.emptyNs "Actor" = none
    ∧ Hooks.applyHook (Hooks.clutterHook true) Scen.emptyNs
      = (Scen.emptyNs, ["class not found: Actor"]) :=
  ⟨rfl, c9_patch_hook_errors_contained.2.2 Scen.emptyNs rfl⟩
